import Mathlib

/-!
Shallow embedding of `src/main.py` (edututor), a small HTTP quiz service with
two handlers:

* `generate_quiz` (lines 53-83): renders a prompt from a fixed template,
  calls a hosted language model, extracts the substring from the first `[`
  to the last `]` of the raw model text, parses it as a JSON array of
  question objects, overwrites each question id with a fresh uuid, stores
  the full record in a metadata store, and returns the questions with
  `correct_answer` nulled.
* `submit_quiz` (lines 85-110): fetches the stored record by quiz id
  (raising an HTTP 404 inside the handler's `try` block when absent), counts
  the submitted answers that equal the stored correct answers, writes back
  `score` and `completed`, and returns `(score, total)`.

Both handler bodies sit inside `try ... except Exception as e: raise
HTTPException(status_code=500, detail=str(e))`, so every exception escaping
the body, including the handler's own `HTTPException(404)`, is re-raised as
a 500.  The embedding models this with `Except PyExc` for the body and
`handleExc` for the blanket `except` clause.

External collaborators are modelled as inputs: the language model's raw text
is an arbitrary `String` argument, Python's `json.loads` (standard library)
is a `String → Option (List RawQuestion)` parameter, `uuid.uuid4` is a
supply `Nat → String` of fresh identifiers, and the Pinecone index is a pure
map `Store := String → Option Metadata` (the placeholder vector `[0]*768` is
dropped, as it carries no information).  Python's `str.format`, which the
service uses to render the prompt template of line 50, is embedded
faithfully in `pyFormat` below, including its treatment of `{...}`
replacement fields.
-/

namespace EduTutor

/-! ### Brace characters (written via code points to keep string escapes uniform) -/

def lbrace : Char := Char.ofNat 123

def rbrace : Char := Char.ofNat 125

/-! ### Python string primitives: `str.find`, `str.rfind`, slicing

`find` / `rfind` return the first / last index of the character, or `-1`
when absent.  A Python slice `s[i:j]` first normalises negative indices by
adding `len(s)` and clamps into `[0, len(s)]`. -/

def pyFindAux (c : Char) : List Char → Option Nat
  | [] => none
  | x :: xs => if x = c then some 0 else (pyFindAux c xs).map (· + 1)

def pyFind (l : List Char) (c : Char) : Int :=
  match pyFindAux c l with
  | some i => (i : Int)
  | none => -1

def pyRfindAux (c : Char) : List Char → Option Nat
  | [] => none
  | x :: xs =>
    match pyRfindAux c xs with
    | some i => some (i + 1)
    | none => if x = c then some 0 else none

def pyRfind (l : List Char) (c : Char) : Int :=
  match pyRfindAux c l with
  | some i => (i : Int)
  | none => -1

def pyNorm (n : Nat) (i : Int) : Nat :=
  if i < 0 then ((n : Int) + i).toNat else min i.toNat n

def pySlice (l : List Char) (start stop : Int) : List Char :=
  (l.drop (pyNorm l.length start)).take (pyNorm l.length stop - pyNorm l.length start)

/-- Lines 60-62 of `src/main.py`: `response[response.find('[') : response.rfind(']') + 1]`,
the heuristic extraction of the candidate JSON payload from the raw model text. -/
def extractCandidate (l : List Char) : List Char :=
  pySlice l (pyFind l '[') (pyRfind l ']' + 1)

/-! ### Data model (lines 30-45 of `src/main.py`) -/

/-- Request body of `POST /generate-quiz` (class `QuizRequest`, lines 31-34). -/
structure QuizRequest where
  topic : String
  difficulty : String
  user_id : String
deriving DecidableEq

/-- A question dict as parsed by `json.loads` from the model output.  The
model may or may not supply an `id`; lines 65-66 overwrite it either way.
The remaining fields mirror class `Question` (lines 36-40). -/
structure RawQuestion where
  id : Option String
  question : String
  options : List String
  correct_answer : String
deriving DecidableEq

/-- A stored question (class `Question`, lines 36-40), after the server
assigned its id on lines 65-66. -/
structure Question where
  id : String
  question : String
  options : List String
  correct_answer : String
deriving DecidableEq

/-- A client-facing question: line 79 builds `{**q, "correct_answer": None}`,
so `correct_answer` is an `Option` that the handler always sets to `none`. -/
structure ClientQuestion where
  id : String
  question : String
  options : List String
  correct_answer : Option String
deriving DecidableEq

/-- The metadata dict stored in the index (lines 70-75).  `score` and
`completed` are absent from the dict until `submit_quiz` writes them
(lines 103-104), hence `Option` fields that start out `none`. -/
structure Metadata where
  user_id : String
  topic : String
  difficulty : String
  questions : List Question
  score : Option Nat
  completed : Option Bool
deriving DecidableEq

/-- Request body of `POST /submit-quiz` (class `QuizSubmission`, lines 42-45).
The Python dict `responses` is modelled as an association list with the
lookup semantics of `dict.get`. -/
structure QuizSubmission where
  user_id : String
  quiz_id : String
  responses : List (String × String)
deriving DecidableEq

/-- Response body of `POST /generate-quiz` (line 80). -/
structure GenResponse where
  quiz_id : String
  questions : List ClientQuestion
deriving DecidableEq

/-- Response body of `POST /submit-quiz` (line 107). -/
structure SubmitResponse where
  score : Nat
  total : Nat
deriving DecidableEq

/-- An HTTP error response produced via `HTTPException(status_code, detail)`. -/
structure HTTPError where
  status : Nat
  detail : String
deriving DecidableEq

/-- A Python exception escaping a handler body: either a `fastapi.HTTPException`
(which subclasses `Exception`) or any other exception carrying its message. -/
inductive PyExc where
  | http : HTTPError → PyExc
  | err : String → PyExc
deriving DecidableEq

/-- `str(e)` for the exceptions the handlers can raise; for an
`HTTPException` starlette renders `"{status_code}: {detail}"`. -/
def PyExc.text : PyExc → String
  | .http e => toString e.status ++ ": " ++ e.detail
  | .err s => s

/-- The Pinecone index, used purely as an id → metadata document store. -/
def Store := String → Option Metadata

/-- `index.upsert` / `index.update`: overwrite the metadata stored at a key. -/
def Store.upsert (s : Store) (k : String) (m : Metadata) : Store :=
  fun q => if q = k then some m else s q

/-- The blanket `except Exception as e: raise HTTPException(500, str(e))`
wrapped around both handler bodies (lines 82-83 and 109-110).  It converts
every escaping exception, including the handler's own 404, into a 500. -/
def handleExc {α : Type} : Except PyExc α × Store → Except HTTPError α × Store
  | (Except.ok a, s) => (Except.ok a, s)
  | (Except.error e, s) => (Except.error { status := 500, detail := e.text }, s)

/-! ### Quiz generation (lines 53-83) -/

/-- Lines 64-66: `for q in questions: q['id'] = str(uuid.uuid4())`.  The
`k`-th question consumes the `k`-th identifier of the uuid supply; the
model-supplied `id` field is discarded. -/
def assignIds (fresh : Nat → String) : Nat → List RawQuestion → List Question
  | _, [] => []
  | k, r :: rs =>
    { id := fresh k, question := r.question, options := r.options,
      correct_answer := r.correct_answer } :: assignIds fresh (k + 1) rs

/-- Line 79: `{**q, "correct_answer": None}`. -/
def clientView (q : Question) : ClientQuestion :=
  { id := q.id, question := q.question, options := q.options, correct_answer := none }

/-- Stand-in message for the `ValueError` raised by `json.loads` on a
malformed candidate payload (its exact text is irrelevant to the contract). -/
def jsonFailText : String := "model output is not a JSON question array"

/-- Body of the `generate_quiz` handler from the raw model text onwards
(lines 60-80).  The prompt construction of line 56 is embedded separately by
`pyFormat` below (see `quiz_prompt_format_fails`); `parse` stands for
`json.loads` applied to the extracted candidate, yielding question dicts. -/
def generate_quiz_try (parse : String → Option (List RawQuestion)) (req : QuizRequest)
    (llmText : String) (quizId : String) (fresh : Nat → String) (store : Store) :
    Except PyExc GenResponse × Store :=
  match parse (String.mk (extractCandidate llmText.toList)) with
  | none => (Except.error (PyExc.err jsonFailText), store)
  | some raws =>
    (Except.ok { quiz_id := quizId,
                 questions := (assignIds fresh 0 raws).map clientView },
     Store.upsert store quizId
       { user_id := req.user_id, topic := req.topic, difficulty := req.difficulty,
         questions := assignIds fresh 0 raws, score := none, completed := none })

/-- The `generate_quiz` handler (lines 53-83): body plus the blanket
`except Exception` clause. -/
def generate_quiz (parse : String → Option (List RawQuestion)) (req : QuizRequest)
    (llmText : String) (quizId : String) (fresh : Nat → String) (store : Store) :
    Except HTTPError GenResponse × Store :=
  handleExc (generate_quiz_try parse req llmText quizId fresh store)

/-! ### Quiz submission (lines 85-110) -/

/-- Lines 97-100: count the questions whose submitted answer equals the
stored `correct_answer`; `dict.get` yields `None` for a missing key, and
`None == str` is `False` in Python, so a missing response never scores. -/
def countScore (questions : List Question) (responses : List (String × String)) : Nat :=
  questions.foldl
    (fun acc q => if List.lookup q.id responses == some q.correct_answer then acc + 1 else acc) 0

/-- Detail string of the 404 raised on line 91. -/
def notFoundText : String := "Quiz not found"

/-- Body of the `submit_quiz` handler (lines 87-107): fetch the record,
raise `HTTPException(404)` when the id is absent, otherwise score, write
back `score`/`completed`, and return `(score, total)`. -/
def submit_quiz_try (sub : QuizSubmission) (store : Store) :
    Except PyExc SubmitResponse × Store :=
  match store sub.quiz_id with
  | none => (Except.error (PyExc.http { status := 404, detail := notFoundText }), store)
  | some metadata =>
    (Except.ok { score := countScore metadata.questions sub.responses,
                 total := metadata.questions.length },
     Store.upsert store sub.quiz_id
       { metadata with score := some (countScore metadata.questions sub.responses),
                       completed := some true })

/-- The `submit_quiz` handler (lines 85-110): body plus the blanket
`except Exception` clause, which also swallows the body's own 404. -/
def submit_quiz (sub : QuizSubmission) (store : Store) :
    Except HTTPError SubmitResponse × Store :=
  handleExc (submit_quiz_try sub store)

/-! ### Python `str.format` (prompt rendering, lines 48-51 and 56)

Langchain's `PromptTemplate` with the default `f-string` format renders via
Python's `str.format` semantics.  `{{` and `}}` are brace escapes; `{` opens
a replacement field whose name runs up to `}`, `:` (format spec) or `!`
(conversion); the field name is then looked up among the keyword arguments,
raising `KeyError` when absent.  Failure of any kind is modelled as `none`.
Attribute / index access inside field names and conversions are not used by
the template under study and render as errors here. -/

/-- `true` for characters that terminate a replacement-field name. -/
def fmtTermChar (ch : Char) : Bool :=
  ch == rbrace || ch == ':' || ch == '!'

/-- Skip a format spec up to the matching `}` at nesting depth 0, returning
the remaining characters. -/
def fmtSkipSpec : Nat → Nat → List Char → Option (List Char)
  | 0, _, _ => none
  | _ + 1, _, [] => none
  | fuel + 1, depth, ch :: rest =>
    if ch = rbrace then
      if depth = 0 then some rest else fmtSkipSpec fuel (depth - 1) rest
    else if ch = lbrace then fmtSkipSpec fuel (depth + 1) rest
    else fmtSkipSpec fuel depth rest

/-- Core of `str.format`: scan the template, substituting replacement fields
from `env` into the (reversed) accumulator; `none` models a raised
`KeyError` / `ValueError`. -/
def formatGo : Nat → List Char → List (String × String) → List Char → Option (List Char)
  | 0, _, _, _ => none
  | fuel + 1, cs, env, acc =>
    match cs with
    | [] => some acc
    | c :: rest =>
      if c = lbrace then
        match rest with
        | [] => none
        | c2 :: rest2 =>
          if c2 = lbrace then formatGo fuel rest2 env (lbrace :: acc)
          else
            match (rest.takeWhile (fun ch => !(fmtTermChar ch)),
                   rest.dropWhile (fun ch => !(fmtTermChar ch))) with
            | (nm, t :: rest3) =>
              if t = ':' then
                match fmtSkipSpec fuel 0 rest3 with
                | none => none
                | some rem =>
                  match List.lookup (String.mk nm) env with
                  | none => none
                  | some v => formatGo fuel rem env (v.toList.reverse ++ acc)
              else if t = rbrace then
                match List.lookup (String.mk nm) env with
                | none => none
                | some v => formatGo fuel rest3 env (v.toList.reverse ++ acc)
              else none
            | (_, []) => none
      else if c = rbrace then
        match rest with
        | c2 :: rest2 => if c2 = rbrace then formatGo fuel rest2 env (rbrace :: acc) else none
        | [] => none
      else formatGo fuel rest env (c :: acc)

/-- Python `template.format(**env)`: `some` of the rendered text, or `none`
when formatting raises. -/
def pyFormat (tmpl : String) (env : List (String × String)) : Option String :=
  (formatGo (tmpl.length + 1) tmpl.toList env []).map (fun cs => String.mk cs.reverse)

/-- The literal template of lines 48-51 of `src/main.py` (braces written as
`\x7b` / `\x7d` escapes, apostrophes as `\x27`): the example-JSON braces are
not doubled, so `str.format` reads them as a replacement field. -/
def quizPromptTemplate : String :=
  "Generate 5 \x7bdifficulty\x7d multiple-choice questions about \x7btopic\x7d. Format as JSON: [\x7b\x27id\x27:\x27uuid\x27,\x27question\x27:\x27text\x27,\x27options\x27:[\x27a\x27,\x27b\x27,\x27c\x27,\x27d\x27],\x27correct_answer\x27:\x27a\x27\x7d]"

/-- Sanity check: on a template whose only fields are the supplied ones,
`pyFormat` renders by plain substitution. -/
def demoTemplate : String := "Quiz on \x7btopic\x7d at \x7bdifficulty\x7d level"

theorem pyFormat_renders_demo :
    pyFormat demoTemplate [(("topic" : String), ("algebra" : String)),
                           (("difficulty" : String), ("easy" : String))] =
      some ("Quiz on algebra at easy level") := by
  rfl

set_option maxRecDepth 40000 in
/-- Claim C2: the claim states that rendering the prompt succeeds for every
pair of strings.  On the code it fails for every pair of strings: the
example-JSON braces of the template (line 50) are not escaped, so
`str.format` parses them as a replacement field named `'id'` and raises
`KeyError` before any prompt is produced.  This theorem evaluates the
embedded `str.format` on the literal template for arbitrary `topic` and
`difficulty` values and shows the rendering always raises. -/
theorem quiz_prompt_format_fails (t d : String) :
    pyFormat quizPromptTemplate [(("topic" : String), t), (("difficulty" : String), d)] = none := by
  rfl

/-! ### A concrete `json.loads` instance

The handlers treat `json.loads` (Python standard library) as a black box;
the theorems below therefore take the parser as a parameter.  To evaluate
the theorems on concrete model outputs, `jsonQuestions` implements a genuine
recursive-descent parser for the JSON fragment the quiz payloads use: an
array of objects with string-valued fields and one string-array field.
String escapes inside JSON strings are not modelled (the concrete inputs
below use none). -/

/-- Value of a question-object field: a JSON string or an array of strings. -/
inductive JField where
  | vstr : String → JField
  | vlist : List String → JField
deriving DecidableEq

/-- Skip ASCII spaces. -/
def skipWs : List Char → List Char
  | [] => []
  | c :: rest => if c = ' ' then skipWs rest else c :: rest

/-- Consume the body of a JSON string up to the closing quote. -/
def jstrAux : List Char → Option (List Char × List Char)
  | [] => none
  | c :: rest => if c = '"' then some ([], rest) else (jstrAux rest).map (fun p => (c :: p.1, p.2))

/-- Parse a JSON string (after optional whitespace). -/
def parseJString (l : List Char) : Option (String × List Char) :=
  match skipWs l with
  | c :: rest =>
    if c = '"' then (jstrAux rest).map (fun p => (String.mk p.1, p.2)) else none
  | [] => none

/-- Parse the items of a string array, the opening `[` already consumed. -/
def parseStrItems : Nat → List Char → Option (List String × List Char)
  | 0, _ => none
  | fuel + 1, l =>
    match skipWs l with
    | c :: rest =>
      if c = ']' then some ([], rest)
      else
        match parseJString (c :: rest) with
        | none => none
        | some (s, rest2) =>
          match skipWs rest2 with
          | c2 :: rest3 =>
            if c2 = ',' then (parseStrItems fuel rest3).map (fun p => (s :: p.1, p.2))
            else if c2 = ']' then some ([s], rest3)
            else none
          | [] => none
    | [] => none

/-- Parse one `"key": value` pair of a question object. -/
def parseJFieldKV (fuel : Nat) (l : List Char) : Option ((String × JField) × List Char) :=
  match parseJString l with
  | none => none
  | some (k, rest) =>
    match skipWs rest with
    | c :: rest2 =>
      if c = ':' then
        match skipWs rest2 with
        | c2 :: rest3 =>
          if c2 = '"' then (jstrAux rest3).map (fun p => ((k, JField.vstr (String.mk p.1)), p.2))
          else if c2 = '[' then
            (parseStrItems fuel rest3).map (fun p => ((k, JField.vlist p.1), p.2))
          else none
        | [] => none
      else none
    | [] => none

/-- Parse the fields of a question object, the opening brace already consumed. -/
def parseJFields : Nat → List Char → Option (List (String × JField) × List Char)
  | 0, _ => none
  | fuel + 1, l =>
    match skipWs l with
    | c :: rest =>
      if c = rbrace then some ([], rest)
      else
        match parseJFieldKV fuel (c :: rest) with
        | none => none
        | some (kv, rest2) =>
          match skipWs rest2 with
          | c2 :: rest3 =>
            if c2 = ',' then (parseJFields fuel rest3).map (fun p => (kv :: p.1, p.2))
            else if c2 = rbrace then some ([kv], rest3)
            else none
          | [] => none
    | [] => none

/-- Look up a string-valued field. -/
def fieldStr (fs : List (String × JField)) (k : String) : Option String :=
  match List.lookup k fs with
  | some (JField.vstr s) => some s
  | _ => none

/-- Look up a string-array-valued field. -/
def fieldList (fs : List (String × JField)) (k : String) : Option (List String) :=
  match List.lookup k fs with
  | some (JField.vlist xs) => some xs
  | _ => none

/-- Assemble a question dict from its parsed fields: `question`, `options`
and `correct_answer` must be present, `id` is optional. -/
def buildRaw (fs : List (String × JField)) : Option RawQuestion :=
  match fieldStr fs ("question"), fieldList fs ("options"), fieldStr fs ("correct_answer") with
  | some q, some os, some ca =>
    some { id := fieldStr fs ("id"), question := q, options := os, correct_answer := ca }
  | _, _, _ => none

/-- Parse the objects of the top-level array, the opening `[` already consumed. -/
def parseObjs : Nat → List Char → Option (List RawQuestion × List Char)
  | 0, _ => none
  | fuel + 1, l =>
    match skipWs l with
    | c :: rest =>
      if c = ']' then some ([], rest)
      else if c = lbrace then
        match parseJFields fuel rest with
        | none => none
        | some (fs, rest2) =>
          match buildRaw fs with
          | none => none
          | some rq =>
            match skipWs rest2 with
            | c2 :: rest3 =>
              if c2 = ',' then (parseObjs fuel rest3).map (fun p => (rq :: p.1, p.2))
              else if c2 = ']' then some ([rq], rest3)
              else none
            | [] => none
      else none
    | [] => none

/-- A concrete stand-in for `json.loads` on the extracted candidate payload:
`some` of the question dicts when the whole input is one JSON array of
question objects, `none` otherwise (in particular on the empty string and on
a lone bracket, where `json.loads` raises `ValueError`). -/
def jsonQuestions (s : String) : Option (List RawQuestion) :=
  match skipWs s.toList with
  | c :: rest =>
    if c = '[' then
      match parseObjs (s.length + 1) rest with
      | some (qs, rest2) => if skipWs rest2 = [] then some qs else none
      | none => none
    else none
  | [] => none

/-! ### Concrete demo values used by the witnesses -/

/-- A concrete uuid supply. -/
def fresh0 : Nat → String := fun n => "uuid-" ++ toString n

/-- The empty store. -/
def demoStore : Store := fun _ => none

/-- A concrete generation request. -/
def demoReq : QuizRequest :=
  { topic := "Photosynthesis", difficulty := "easy", user_id := "user-1" }

/-- A raw model text whose JSON array holds two question objects, wrapped in
prose; the first object carries a model-supplied id which the server must
discard. -/
def demoText : String :=
  "Sure, here you go: [\x7b\"id\": \"x\", \"question\": \"Q1\", \"options\": [\"a\", \"b\", \"c\", \"d\"], \"correct_answer\": \"a\"\x7d, \x7b\"question\": \"Q2\", \"options\": [\"a\", \"b\", \"c\", \"d\"], \"correct_answer\": \"b\"\x7d]"

/-- The question dicts `json.loads` yields on the array inside `demoText`. -/
def demoRaws : List RawQuestion :=
  [{ id := some ("x"), question := "Q1", options := ["a", "b", "c", "d"], correct_answer := "a" },
   { id := none, question := "Q2", options := ["a", "b", "c", "d"], correct_answer := "b" }]

set_option maxRecDepth 40000 in
/-- Sanity check: extraction plus parsing of `demoText` yields `demoRaws`. -/
theorem jsonQuestions_demoText :
    jsonQuestions (String.mk (extractCandidate demoText.toList)) = some demoRaws := by
  rfl

/-- A quiz id for the demo store. -/
def demoQuizId : String := "quiz-1"

/-- A stored record with two questions. -/
def demoMeta : Metadata :=
  { user_id := "user-1", topic := "Photosynthesis", difficulty := "easy",
    questions :=
      [{ id := "uuid-0", question := "Q1", options := ["a", "b", "c", "d"], correct_answer := "a" },
       { id := "uuid-1", question := "Q2", options := ["a", "b", "c", "d"], correct_answer := "b" }],
    score := none, completed := none }

/-- A store holding exactly `demoMeta` under `demoQuizId`. -/
def demoStore2 : Store := fun k => if k = demoQuizId then some demoMeta else none

/-- A submission answering the first question correctly and omitting the
second. -/
def demoSub : QuizSubmission :=
  { user_id := "user-1", quiz_id := demoQuizId, responses := [("uuid-0", "a")] }

/-- A submission against an id absent from the store. -/
def demoSubMissing : QuizSubmission :=
  { user_id := "user-1", quiz_id := "missing", responses := [] }

/-! ### Submission lemmas and claims C1, C3, C8, C10 -/

/-- The scoring fold of lines 97-100 counts exactly the questions whose
submitted answer equals the stored answer. -/
theorem countScore_foldl (responses : List (String × String)) (qs : List Question) :
    ∀ a : Nat,
      List.foldl
        (fun acc q =>
          if List.lookup q.id responses == some q.correct_answer then acc + 1 else acc) a qs =
      a + qs.countP (fun q => List.lookup q.id responses == some q.correct_answer) := by
  induction qs with
  | nil => intro a; simp
  | cons q qs ih =>
    intro a
    simp only [List.foldl_cons, List.countP_cons, ih]
    by_cases h : List.lookup q.id responses == some q.correct_answer
    · simp [h]; omega
    · simp [h]

theorem countScore_eq_countP (qs : List Question) (responses : List (String × String)) :
    countScore qs responses =
      qs.countP (fun q => List.lookup q.id responses == some q.correct_answer) := by
  unfold countScore
  simpa using countScore_foldl responses qs 0

theorem countScore_le_length (qs : List Question) (responses : List (String × String)) :
    countScore qs responses ≤ qs.length := by
  rw [countScore_eq_countP]
  exact List.countP_le_length _

/-- Unfolding of a successful submission: when the record is present, the
handler returns the computed score and total and overwrites the record with
`score` and `completed` set. -/
theorem submit_quiz_eq (sub : QuizSubmission) (store : Store) (m : Metadata)
    (h : store sub.quiz_id = some m) :
    submit_quiz sub store =
      (Except.ok { score := countScore m.questions sub.responses,
                   total := m.questions.length },
       Store.upsert store sub.quiz_id
         { m with score := some (countScore m.questions sub.responses),
                  completed := some true }) := by
  unfold submit_quiz submit_quiz_try
  rw [h]
  rfl

/-- Claim C1: the claim states that submitting with an unknown `quiz_id`
yields a `NotFound`-class 404 response and never a generic 500.  On the code
the handler does raise `HTTPException(404, "Quiz not found")` on line 91,
but that raise happens inside the `try` block, and the blanket
`except Exception` on lines 109-110 catches it and re-raises
`HTTPException(500, str(e))`; the caller therefore receives a generic 500
whose detail merely quotes the swallowed 404.  This theorem evaluates the
handler on an arbitrary submission whose quiz id is absent. -/
theorem submit_quiz_unknown_id_500 (sub : QuizSubmission) (store : Store)
    (h : store sub.quiz_id = none) :
    (submit_quiz sub store).1 =
      Except.error
        { status := 500,
          detail := (PyExc.http { status := 404, detail := notFoundText }).text } := by
  unfold submit_quiz submit_quiz_try
  rw [h]
  rfl

/-- Witness for `submit_quiz_unknown_id_500` at a concrete submission
against the empty store. -/
theorem submit_quiz_unknown_id_500_w :
    demoStore demoSubMissing.quiz_id = none ∧
    (submit_quiz demoSubMissing demoStore).1 =
      Except.error
        { status := 500,
          detail := (PyExc.http { status := 404, detail := notFoundText }).text } :=
  ⟨rfl, submit_quiz_unknown_id_500 demoSubMissing demoStore rfl⟩

/-- Claim C3: on a successful submission the returned score is the number of
stored questions whose submitted answer is exactly (string equality, hence
case-sensitive and untrimmed) the stored `correct_answer`, a missing
response counting as wrong; the returned total is the number of stored
questions; and the record is re-stored with `completed = true` and `score`
equal to that count (lines 97-107). -/
theorem submit_quiz_score_correct (sub : QuizSubmission) (store : Store) (m : Metadata)
    (h : store sub.quiz_id = some m) :
    (submit_quiz sub store).1 =
      Except.ok
        { score := m.questions.countP
            (fun q => List.lookup q.id sub.responses == some q.correct_answer),
          total := m.questions.length } ∧
    (submit_quiz sub store).2 sub.quiz_id =
      some { m with
               score := some (m.questions.countP
                 (fun q => List.lookup q.id sub.responses == some q.correct_answer)),
               completed := some true } := by
  rw [submit_quiz_eq sub store m h]
  constructor
  · simp [countScore_eq_countP]
  · simp [Store.upsert, countScore_eq_countP]

/-- Witness for `submit_quiz_score_correct` on a concrete two-question
record: one exact match and one missing response. -/
theorem submit_quiz_score_correct_w :
    demoStore2 demoSub.quiz_id = some demoMeta ∧
    ((submit_quiz demoSub demoStore2).1 =
      Except.ok
        { score := demoMeta.questions.countP
            (fun q => List.lookup q.id demoSub.responses == some q.correct_answer),
          total := demoMeta.questions.length } ∧
    (submit_quiz demoSub demoStore2).2 demoSub.quiz_id =
      some { demoMeta with
               score := some (demoMeta.questions.countP
                 (fun q => List.lookup q.id demoSub.responses == some q.correct_answer)),
               completed := some true }) :=
  ⟨rfl, submit_quiz_score_correct demoSub demoStore2 demoMeta rfl⟩

/-- Claim C8: a successful submission only writes the `score` and
`completed` fields; `user_id`, `topic`, `difficulty` and the questions
(hence every question's id, text, options and `correct_answer`) are stored
back unchanged, and every other key of the store is untouched
(lines 102-105). -/
theorem submit_quiz_frame (sub : QuizSubmission) (store : Store) (m : Metadata)
    (h : store sub.quiz_id = some m) :
    ∃ n : Nat,
      (submit_quiz sub store).2 sub.quiz_id =
        some { user_id := m.user_id, topic := m.topic, difficulty := m.difficulty,
               questions := m.questions, score := some n, completed := some true } ∧
      ∀ k : String, k ≠ sub.quiz_id → (submit_quiz sub store).2 k = store k := by
  refine ⟨countScore m.questions sub.responses, ?_, ?_⟩
  · rw [submit_quiz_eq sub store m h]
    simp [Store.upsert]
  · intro k hk
    rw [submit_quiz_eq sub store m h]
    simp [Store.upsert, hk]

/-- Witness for `submit_quiz_frame` at the concrete demo record. -/
theorem submit_quiz_frame_w :
    demoStore2 demoSub.quiz_id = some demoMeta ∧
    ∃ n : Nat,
      (submit_quiz demoSub demoStore2).2 demoSub.quiz_id =
        some { user_id := demoMeta.user_id, topic := demoMeta.topic,
               difficulty := demoMeta.difficulty, questions := demoMeta.questions,
               score := some n, completed := some true } ∧
      ∀ k : String, k ≠ demoSub.quiz_id → (submit_quiz demoSub demoStore2).2 k = demoStore2 k :=
  ⟨rfl, submit_quiz_frame demoSub demoStore2 demoMeta rfl⟩

/-- Claim C10: on a successful submission the returned score is at most the
returned total (it is a `Nat`, so `0 ≤ score` holds by type), the total is
the number of stored questions, and the score written back to the store is
the returned one, so the stored score obeys the same bound. -/
theorem submit_quiz_score_le_total (sub : QuizSubmission) (store : Store) (m : Metadata)
    (h : store sub.quiz_id = some m) (r : SubmitResponse)
    (hr : (submit_quiz sub store).1 = Except.ok r) :
    r.score ≤ r.total ∧
    r.total = m.questions.length ∧
    ((submit_quiz sub store).2 sub.quiz_id).bind Metadata.score = some r.score := by
  rw [submit_quiz_eq sub store m h] at hr ⊢
  simp only at hr
  injection hr with hr
  subst hr
  refine ⟨countScore_le_length _ _, rfl, ?_⟩
  simp [Store.upsert]

/-! ### Extraction lemmas (lines 60-62)

`response.find('[')` is `-1` when `[` is absent, and `rfind(']') + 1` is `0`
when `]` is absent; the Python slice then degenerates to the empty string,
or to the single character `]` when `]` is the last character of a text
without `[`.  In every such case the candidate payload is not a JSON array
and `json.loads` raises. -/

theorem findAux_none (c : Char) (l : List Char) (h : c ∉ l) : pyFindAux c l = none := by
  induction l with
  | nil => rfl
  | cons x xs ih =>
    simp only [List.mem_cons, not_or] at h
    have hx : x ≠ c := fun hx => h.1 hx.symm
    simp [pyFindAux, hx, ih h.2]

theorem rfindAux_none (c : Char) (l : List Char) (h : c ∉ l) : pyRfindAux c l = none := by
  induction l with
  | nil => rfl
  | cons x xs ih =>
    simp only [List.mem_cons, not_or] at h
    have hx : x ≠ c := fun hx => h.1 hx.symm
    simp [pyRfindAux, ih h.2, hx]

theorem rfindAux_lt (c : Char) : ∀ (l : List Char) (p : Nat),
    pyRfindAux c l = some p → p < l.length := by
  intro l
  induction l with
  | nil => intro p h; simp [pyRfindAux] at h
  | cons x xs ih =>
    intro p h
    cases hx : pyRfindAux c xs with
    | some i =>
      simp only [pyRfindAux, hx, Option.some.injEq] at h
      have := ih i hx
      simp only [List.length_cons]
      omega
    | none =>
      simp only [pyRfindAux, hx] at h
      by_cases hxc : x = c
      · simp only [hxc, if_true, Option.some.injEq] at h
        simp only [List.length_cons]
        omega
      · simp [hxc] at h

theorem rfindAux_last (c : Char) : ∀ (l : List Char) (p : Nat),
    pyRfindAux c l = some p → p + 1 = l.length → l.drop p = [c] := by
  intro l
  induction l with
  | nil => intro p h _; simp [pyRfindAux] at h
  | cons x xs ih =>
    intro p h hp
    cases hx : pyRfindAux c xs with
    | some i =>
      simp only [pyRfindAux, hx, Option.some.injEq] at h
      have hpi : p = i + 1 := by omega
      subst hpi
      simp only [List.length_cons] at hp
      have hxs : i + 1 = xs.length := by omega
      simpa using ih i hx hxs
    | none =>
      simp only [pyRfindAux, hx] at h
      by_cases hxc : x = c
      · simp only [hxc, if_true, Option.some.injEq] at h
        have hp0 : p = 0 := by omega
        subst hp0
        simp only [List.length_cons] at hp
        have hlen : xs.length = 0 := by omega
        have hxs : xs = [] := List.length_eq_zero.mp hlen
        subst hxs
        simp [hxc]
      · simp [hxc] at h

theorem extract_rfind_none (l : List Char) (h : pyRfindAux ']' l = none) :
    extractCandidate l = [] := by
  have hr : pyRfind l ']' = -1 := by unfold pyRfind; rw [h]
  unfold extractCandidate pySlice
  rw [hr]
  have h0 : pyNorm l.length (-1 + 1) = 0 := by norm_num [pyNorm]
  rw [h0]
  simp

theorem extract_find_none_last (l : List Char) (p : Nat)
    (hf : pyFindAux '[' l = none) (hr : pyRfindAux ']' l = some p)
    (hp : p + 1 = l.length) : extractCandidate l = [(']' : Char)] := by
  have hlt : p < l.length := rfindAux_lt _ _ _ hr
  have hdrop : l.drop p = [(']' : Char)] := rfindAux_last _ _ _ hr hp
  have hf' : pyFind l '[' = -1 := by unfold pyFind; rw [hf]
  have hr' : pyRfind l ']' = (p : Int) := by unfold pyRfind; rw [hr]
  unfold extractCandidate pySlice
  rw [hf', hr']
  have h1 : pyNorm l.length (-1) = p := by
    simp only [pyNorm]
    rw [if_pos (show (-1 : Int) < 0 by norm_num)]
    omega
  have h2 : pyNorm l.length ((p : Int) + 1) = p + 1 := by
    simp only [pyNorm]
    rw [if_neg (show ¬((p : Int) + 1 < 0) by omega)]
    have ht : ((p : Int) + 1).toNat = p + 1 := by omega
    rw [ht]
    exact Nat.min_eq_left (by omega)
  rw [h1, h2]
  have hs : p + 1 - p = 1 := by omega
  rw [hs, hdrop]
  rfl

theorem extract_find_none_inner (l : List Char) (p : Nat)
    (hf : pyFindAux '[' l = none) (hr : pyRfindAux ']' l = some p)
    (hlt2 : p + 1 < l.length) : extractCandidate l = [] := by
  have hlt : p < l.length := rfindAux_lt _ _ _ hr
  have hf' : pyFind l '[' = -1 := by unfold pyFind; rw [hf]
  have hr' : pyRfind l ']' = (p : Int) := by unfold pyRfind; rw [hr]
  unfold extractCandidate pySlice
  rw [hf', hr']
  have h1 : pyNorm l.length (-1) = l.length - 1 := by
    simp only [pyNorm]
    rw [if_pos (show (-1 : Int) < 0 by norm_num)]
    omega
  have h2 : pyNorm l.length ((p : Int) + 1) = p + 1 := by
    simp only [pyNorm]
    rw [if_neg (show ¬((p : Int) + 1 < 0) by omega)]
    have ht : ((p : Int) + 1).toNat = p + 1 := by omega
    rw [ht]
    exact Nat.min_eq_left (by omega)
  rw [h1, h2]
  have hs : p + 1 - (l.length - 1) = 0 := by omega
  rw [hs]
  simp

/-- When the raw text has no `[` or no `]`, the extracted candidate is the
empty string or the single character `]`. -/
theorem extract_no_bracket (l : List Char)
    (h : ('[' : Char) ∉ l ∨ (']' : Char) ∉ l) :
    extractCandidate l = [] ∨ extractCandidate l = [(']' : Char)] := by
  rcases h with h | h
  · have hf := findAux_none _ _ h
    cases hr : pyRfindAux ']' l with
    | none => exact Or.inl (extract_rfind_none _ hr)
    | some p =>
      have hlt := rfindAux_lt _ _ _ hr
      rcases Nat.lt_or_ge (p + 1) l.length with hc | hc
      · exact Or.inl (extract_find_none_inner _ _ hf hr hc)
      · have hpe : p + 1 = l.length := by omega
        exact Or.inr (extract_find_none_last _ _ hf hr hpe)
  · exact Or.inl (extract_rfind_none _ (rfindAux_none _ _ h))

/-! ### Generation lemmas and claims C4, C5, C6, C7, C9 -/

theorem assignIds_length (fresh : Nat → String) : ∀ (k : Nat) (rs : List RawQuestion),
    (assignIds fresh k rs).length = rs.length := by
  intro k rs
  induction rs generalizing k with
  | nil => rfl
  | cons r rs ih => simp [assignIds, ih]

/-- The ids assigned on lines 65-66 are exactly the consumed prefix of the
uuid supply, independently of any model-supplied ids. -/
theorem assignIds_map_id (fresh : Nat → String) : ∀ (k : Nat) (rs : List RawQuestion),
    (assignIds fresh k rs).map Question.id = (List.range' k rs.length).map fresh := by
  intro k rs
  induction rs generalizing k with
  | nil => rfl
  | cons r rs ih => simp [assignIds, List.range'_succ, ih (k + 1)]

theorem clientView_id_comp (qs : List Question) :
    qs.map (ClientQuestion.id ∘ clientView) = qs.map Question.id := by
  induction qs with
  | nil => rfl
  | cons q qs ih => simp [clientView, Function.comp, ih]

theorem clientView_map_id (qs : List Question) :
    (qs.map clientView).map ClientQuestion.id = qs.map Question.id := by
  rw [List.map_map, clientView_id_comp]

theorem clientView_ca_comp (qs : List Question) :
    qs.map (ClientQuestion.correct_answer ∘ clientView) =
      List.replicate qs.length none := by
  induction qs with
  | nil => rfl
  | cons q qs ih => simp [clientView, Function.comp, ih, List.replicate_succ]

theorem clientView_map_ca (qs : List Question) :
    (qs.map clientView).map ClientQuestion.correct_answer =
      List.replicate qs.length none := by
  rw [List.map_map, clientView_ca_comp]

/-- Unfolding of a successful generation: with the candidate payload parsed,
the handler stores the full record and returns the redacted questions. -/
theorem generate_quiz_eq_ok (parse : String → Option (List RawQuestion)) (req : QuizRequest)
    (llmText : String) (quizId : String) (fresh : Nat → String) (store : Store)
    (raws : List RawQuestion)
    (hp : parse (String.mk (extractCandidate llmText.toList)) = some raws) :
    generate_quiz parse req llmText quizId fresh store =
      (Except.ok { quiz_id := quizId, questions := (assignIds fresh 0 raws).map clientView },
       Store.upsert store quizId
         { user_id := req.user_id, topic := req.topic, difficulty := req.difficulty,
           questions := assignIds fresh 0 raws, score := none, completed := none }) := by
  unfold generate_quiz generate_quiz_try
  rw [hp]
  rfl

/-- Unfolding of a failed generation: when the candidate payload does not
parse, the `ValueError` of `json.loads` is wrapped into a 500 and the store
is left untouched. -/
theorem generate_quiz_eq_err (parse : String → Option (List RawQuestion)) (req : QuizRequest)
    (llmText : String) (quizId : String) (fresh : Nat → String) (store : Store)
    (hp : parse (String.mk (extractCandidate llmText.toList)) = none) :
    generate_quiz parse req llmText quizId fresh store =
      (Except.error { status := 500, detail := jsonFailText }, store) := by
  unfold generate_quiz generate_quiz_try
  rw [hp]
  rfl

/-- The response `generate_quiz` produces on `demoText` with the concrete
uuid supply `fresh0`: two redacted questions. -/
def demoGenResp : GenResponse :=
  { quiz_id := demoQuizId,
    questions :=
      [{ id := "uuid-0", question := "Q1", options := ["a", "b", "c", "d"],
         correct_answer := none },
       { id := "uuid-1", question := "Q2", options := ["a", "b", "c", "d"],
         correct_answer := none }] }

set_option maxRecDepth 40000 in
/-- Concrete evaluation of the whole generation pipeline on `demoText`. -/
theorem generate_quiz_demo :
    generate_quiz jsonQuestions demoReq demoText demoQuizId fresh0 demoStore =
      (Except.ok demoGenResp, Store.upsert demoStore demoQuizId demoMeta) := by
  rfl

set_option maxRecDepth 40000 in
/-- Claim C4 counterexample: the claim states that every successful
generate-quiz response contains exactly 5 questions regardless of how many
question objects the model text contained.  On the code nothing enforces
the count: fed a model text whose JSON array holds two question objects,
the handler succeeds and returns two questions. -/
theorem generate_quiz_not_always_five :
    ¬ (∀ r : GenResponse,
        (generate_quiz jsonQuestions demoReq demoText demoQuizId fresh0 demoStore).1 =
          Except.ok r → r.questions.length = 5) := by
  intro h
  have h2 := h demoGenResp (by rw [generate_quiz_demo])
  simp [demoGenResp] at h2

/-- Claim C4 (amended): a successful generate-quiz response contains exactly
as many questions as the parsed JSON array of the model text; it contains 5
questions exactly when the model emitted 5. -/
theorem generate_quiz_count_eq_parsed (parse : String → Option (List RawQuestion))
    (req : QuizRequest) (llmText : String) (quizId : String) (fresh : Nat → String)
    (store : Store) (raws : List RawQuestion)
    (hp : parse (String.mk (extractCandidate llmText.toList)) = some raws) :
    (generate_quiz parse req llmText quizId fresh store).1 =
      Except.ok { quiz_id := quizId, questions := (assignIds fresh 0 raws).map clientView } ∧
    ((assignIds fresh 0 raws).map clientView).length = raws.length := by
  rw [generate_quiz_eq_ok parse req llmText quizId fresh store raws hp]
  exact ⟨rfl, by simp [assignIds_length]⟩

set_option maxRecDepth 40000 in
/-- Witness for `generate_quiz_count_eq_parsed` on `demoText` (two parsed
questions, two returned questions). -/
theorem generate_quiz_count_eq_parsed_w :
    jsonQuestions (String.mk (extractCandidate demoText.toList)) = some demoRaws ∧
    ((generate_quiz jsonQuestions demoReq demoText demoQuizId fresh0 demoStore).1 =
       Except.ok { quiz_id := demoQuizId,
                   questions := (assignIds fresh0 0 demoRaws).map clientView } ∧
     ((assignIds fresh0 0 demoRaws).map clientView).length = demoRaws.length) :=
  ⟨by rfl,
   generate_quiz_count_eq_parsed jsonQuestions demoReq demoText demoQuizId fresh0 demoStore
     demoRaws (by rfl)⟩

/-- Claim C5: every question of a successful generate-quiz response has its
`correct_answer` field nulled (line 79); the client-facing response never
carries a stored correct answer. -/
theorem generate_quiz_redacts_answers (parse : String → Option (List RawQuestion))
    (req : QuizRequest) (llmText : String) (quizId : String) (fresh : Nat → String)
    (store : Store) (r : GenResponse)
    (hr : (generate_quiz parse req llmText quizId fresh store).1 = Except.ok r) :
    r.questions.map ClientQuestion.correct_answer = List.replicate r.questions.length none := by
  cases hp : parse (String.mk (extractCandidate llmText.toList)) with
  | none =>
    rw [generate_quiz_eq_err parse req llmText quizId fresh store hp] at hr
    simp at hr
  | some raws =>
    rw [generate_quiz_eq_ok parse req llmText quizId fresh store raws hp] at hr
    have hr' : Except.ok
        ({ quiz_id := quizId, questions := (assignIds fresh 0 raws).map clientView } :
          GenResponse) = Except.ok r := hr
    injection hr' with hr'
    subst hr'
    simp [clientView_ca_comp, List.length_map, List.map_map]

set_option maxRecDepth 40000 in
/-- Witness for `generate_quiz_redacts_answers` at the concrete response. -/
theorem generate_quiz_redacts_answers_w :
    (generate_quiz jsonQuestions demoReq demoText demoQuizId fresh0 demoStore).1 =
      Except.ok demoGenResp ∧
    demoGenResp.questions.map ClientQuestion.correct_answer =
      List.replicate demoGenResp.questions.length none := by
  have pf : (generate_quiz jsonQuestions demoReq demoText demoQuizId fresh0 demoStore).1 =
      Except.ok demoGenResp := by rw [generate_quiz_demo]
  exact ⟨pf, generate_quiz_redacts_answers jsonQuestions demoReq demoText demoQuizId fresh0
    demoStore demoGenResp pf⟩

/-- Claim C6: the ids of the stored and returned questions are exactly the
consumed prefix of the server's fresh-uuid supply (any model-supplied id is
discarded by lines 65-66), and under the freshness of the supply, modelling
`uuid.uuid4`, they are pairwise distinct and non-empty. -/
theorem generate_quiz_fresh_ids (parse : String → Option (List RawQuestion))
    (req : QuizRequest) (llmText : String) (quizId : String) (fresh : Nat → String)
    (store : Store) (raws : List RawQuestion)
    (hp : parse (String.mk (extractCandidate llmText.toList)) = some raws)
    (hnd : ((List.range raws.length).map fresh).Nodup)
    (hne : ("" : String) ∉ (List.range raws.length).map fresh) :
    ((generate_quiz parse req llmText quizId fresh store).2 quizId).map
        (fun md => md.questions.map Question.id) =
      some ((List.range raws.length).map fresh) ∧
    ((generate_quiz parse req llmText quizId fresh store).1).map
        (fun r => r.questions.map ClientQuestion.id) =
      Except.ok ((List.range raws.length).map fresh) ∧
    ((List.range raws.length).map fresh).Nodup ∧
    ("" : String) ∉ (List.range raws.length).map fresh := by
  rw [generate_quiz_eq_ok parse req llmText quizId fresh store raws hp]
  refine ⟨?_, ?_, hnd, hne⟩
  · simp [Store.upsert, assignIds_map_id, List.range_eq_range']
  · simp [Except.map, List.map_map, clientView_id_comp, assignIds_map_id,
      List.range_eq_range']

set_option maxRecDepth 40000 in
/-- Witness for `generate_quiz_fresh_ids` with the concrete supply
`fresh0 n = "uuid-" ++ toString n`, distinct and non-empty on the two
consumed indices. -/
theorem generate_quiz_fresh_ids_w :
    (jsonQuestions (String.mk (extractCandidate demoText.toList)) = some demoRaws ∧
     ((List.range demoRaws.length).map fresh0).Nodup ∧
     ("" : String) ∉ (List.range demoRaws.length).map fresh0) ∧
    (((generate_quiz jsonQuestions demoReq demoText demoQuizId fresh0 demoStore).2
          demoQuizId).map (fun md => md.questions.map Question.id) =
        some ((List.range demoRaws.length).map fresh0) ∧
     ((generate_quiz jsonQuestions demoReq demoText demoQuizId fresh0 demoStore).1).map
        (fun r => r.questions.map ClientQuestion.id) =
      Except.ok ((List.range demoRaws.length).map fresh0) ∧
     ((List.range demoRaws.length).map fresh0).Nodup ∧
     ("" : String) ∉ (List.range demoRaws.length).map fresh0) :=
  ⟨⟨by rfl, by decide, by decide⟩,
   generate_quiz_fresh_ids jsonQuestions demoReq demoText demoQuizId fresh0 demoStore
     demoRaws (by rfl) (by decide) (by decide)⟩

/-- Claim C7: whenever the raw model text has no `[` or no `]`, or the
extracted candidate substring is not a valid JSON question array, the
generation surfaces an error to the caller (a generic 500, consistent with
the single failure mode of lines 82-83) and the store is unchanged — the
upsert of line 76 only happens after parsing succeeds.  The hypotheses on
the empty and lone-bracket strings record that `json.loads` rejects the two
degenerate slices produced when a bracket is missing. -/
theorem generate_quiz_bad_json_error_no_store (parse : String → Option (List RawQuestion))
    (req : QuizRequest) (llmText : String) (quizId : String) (fresh : Nat → String)
    (store : Store)
    (hE : parse (String.mk ([] : List Char)) = none)
    (hB : parse (String.mk [(']' : Char)]) = none)
    (h : (('[' : Char) ∉ llmText.toList ∨ (']' : Char) ∉ llmText.toList) ∨
         parse (String.mk (extractCandidate llmText.toList)) = none) :
    (generate_quiz parse req llmText quizId fresh store).1 =
      Except.error { status := 500, detail := jsonFailText } ∧
    (generate_quiz parse req llmText quizId fresh store).2 = store := by
  have hp : parse (String.mk (extractCandidate llmText.toList)) = none := by
    rcases h with hbr | hp
    · rcases extract_no_bracket _ hbr with he | he
      · rw [he]; exact hE
      · rw [he]; exact hB
    · exact hp
  rw [generate_quiz_eq_err parse req llmText quizId fresh store hp]
  exact ⟨rfl, rfl⟩

/-- A raw model text with no brackets at all. -/
def demoNoJson : String := "hello there"

/-- Witness for `generate_quiz_bad_json_error_no_store` on a bracket-free
model text against the empty store. -/
theorem generate_quiz_bad_json_error_no_store_w :
    (jsonQuestions (String.mk ([] : List Char)) = none ∧
     jsonQuestions (String.mk [(']' : Char)]) = none ∧
     ('[' : Char) ∉ demoNoJson.toList) ∧
    ((generate_quiz jsonQuestions demoReq demoNoJson demoQuizId fresh0 demoStore).1 =
       Except.error { status := 500, detail := jsonFailText } ∧
     (generate_quiz jsonQuestions demoReq demoNoJson demoQuizId fresh0 demoStore).2 =
       demoStore) :=
  ⟨⟨rfl, rfl, by decide⟩,
   generate_quiz_bad_json_error_no_store jsonQuestions demoReq demoNoJson demoQuizId fresh0
     demoStore rfl rfl (Or.inl (Or.inl (by decide)))⟩

/-- Claim C9: the record stored by a successful generation has no `score`
key and no `completed` key (lines 70-75 create neither), so `completed`
reads as the boolean default `false` and no score is set. -/
theorem generate_quiz_initial_record (parse : String → Option (List RawQuestion))
    (req : QuizRequest) (llmText : String) (quizId : String) (fresh : Nat → String)
    (store : Store) (raws : List RawQuestion)
    (hp : parse (String.mk (extractCandidate llmText.toList)) = some raws) :
    ((generate_quiz parse req llmText quizId fresh store).2 quizId).map Metadata.score =
      some none ∧
    ((generate_quiz parse req llmText quizId fresh store).2 quizId).map Metadata.completed =
      some none ∧
    ((generate_quiz parse req llmText quizId fresh store).2 quizId).map
        (fun md => md.completed.getD false) = some false := by
  rw [generate_quiz_eq_ok parse req llmText quizId fresh store raws hp]
  refine ⟨?_, ?_, ?_⟩ <;> simp [Store.upsert]

set_option maxRecDepth 40000 in
/-- Witness for `generate_quiz_initial_record` on `demoText`. -/
theorem generate_quiz_initial_record_w :
    jsonQuestions (String.mk (extractCandidate demoText.toList)) = some demoRaws ∧
    (((generate_quiz jsonQuestions demoReq demoText demoQuizId fresh0 demoStore).2
          demoQuizId).map Metadata.score = some none ∧
     ((generate_quiz jsonQuestions demoReq demoText demoQuizId fresh0 demoStore).2
          demoQuizId).map Metadata.completed = some none ∧
     ((generate_quiz jsonQuestions demoReq demoText demoQuizId fresh0 demoStore).2
          demoQuizId).map (fun md => md.completed.getD false) = some false) :=
  ⟨by rfl,
   generate_quiz_initial_record jsonQuestions demoReq demoText demoQuizId fresh0 demoStore
     demoRaws (by rfl)⟩

/-- Witness for `submit_quiz_score_le_total` at the concrete demo record,
where the computed response is `score = 1`, `total = 2`. -/
theorem submit_quiz_score_le_total_w :
    demoStore2 demoSub.quiz_id = some demoMeta ∧
    (submit_quiz demoSub demoStore2).1 = Except.ok { score := 1, total := 2 } ∧
    (SubmitResponse.score { score := 1, total := 2 } ≤
       SubmitResponse.total { score := 1, total := 2 } ∧
     SubmitResponse.total { score := 1, total := 2 } = demoMeta.questions.length ∧
     ((submit_quiz demoSub demoStore2).2 demoSub.quiz_id).bind Metadata.score =
       some (SubmitResponse.score { score := 1, total := 2 })) :=
  ⟨rfl, rfl,
   submit_quiz_score_le_total demoSub demoStore2 demoMeta rfl { score := 1, total := 2 } rfl⟩

end EduTutor
